import Mathlib

/-!
Verification of the q-distributed-database client SDK (Rust) against its
natural-language specification.  The Rust sources are shallowly embedded:
pure functions become Lean functions, stateful methods become explicit
state-passing functions, machine integers become Nat (unsigned) or Int
(signed) with explicit bounds where overflow matters, network effects are
modelled by passing the observed outcome of each wire exchange as an
explicit argument, and the list of wire messages sent by an operation is
returned alongside its result so that statements about "no message is
sent" are expressible.
-/

namespace QDB

/-- Role enumeration from types.rs. -/
inductive Role where
  | Admin
  | User
  | ReadOnly
deriving DecidableEq, Repr

/-- Error hierarchy from error.rs (DatabaseError).  String, u64, i64, u32,
u8 and usize payloads become String, Nat, Int, Nat, Nat and Nat. -/
inductive DatabaseError where
  | ConnectionTimeout (host : String) (timeout_ms : Nat)
  | ConnectionRefused (host : String)
  | ConnectionLost (node_id : Nat)
  | AuthenticationFailed (reason : String)
  | TokenExpired (expired_at : Int)
  | InvalidCredentials
  | SyntaxError (sql : String) (position : Nat) (message : String)
  | TableNotFound (table_name : String)
  | ColumnNotFound (column_name : String)
  | ConstraintViolation (constraint : String) (details : String)
  | TransactionAborted (transaction_id : Nat) (reason : String)
  | DeadlockDetected (transaction_id : Nat)
  | IsolationViolation (details : String)
  | SerializationError (message : String)
  | ChecksumMismatch (expected : Nat) (actual : Nat)
  | MessageTooLarge (size : Nat) (max_size : Nat)
  | ProtocolVersionMismatch (client_version : Nat) (server_version : Nat)
  | NetworkError (details : String)
  | TimeoutError (operation : String) (timeout_ms : Nat)
  | InternalError (component : String) (details : String)
  | NodeNotFound (node_id : Nat)
  | NodeAlreadyExists (hostname : String)
  | InsufficientPermissions (required : String)
  | UserNotFound (user_id : Nat)
  | UserAlreadyExists (username : String)
  | InvalidRole (role : String)
  | CannotRemoveLastAdmin
deriving DecidableEq, Repr

/-- DatabaseError::is_retryable from error.rs: exactly ConnectionTimeout,
ConnectionLost, NetworkError and TimeoutError are retryable. -/
def DatabaseError.is_retryable : DatabaseError → Bool
  | .ConnectionTimeout _ _ => true
  | .ConnectionLost _ => true
  | .NetworkError _ => true
  | .TimeoutError _ _ => true
  | _ => false

/-- DatabaseError::is_connection_error from error.rs. -/
def DatabaseError.is_connection_error : DatabaseError → Bool
  | .ConnectionTimeout _ _ => true
  | .ConnectionRefused _ => true
  | .ConnectionLost _ => true
  | _ => false

/-- DatabaseError::is_auth_error from error.rs. -/
def DatabaseError.is_auth_error : DatabaseError → Bool
  | .AuthenticationFailed _ => true
  | .TokenExpired _ => true
  | .InvalidCredentials => true
  | _ => false

/-!  Retry wrapper (connection.rs, ConnectionManager::execute_with_retry).

The Rust loop calls the operation, returns on success, and on failure
retries while the retries counter is below max_retries and the error is
retryable; otherwise it returns the current (most recent) error.  The
operation is modelled as a function from the attempt index (0-based) to
its result; the sleep and the backoff-delay bookkeeping are timing only
and do not influence which value is returned or how many calls are made,
so they are not part of the state here.  The function returns the final
result together with the number of times the operation was invoked. -/

/-- Loop body of execute_with_retry: remaining is max_retries minus the
retries used so far, attempt is the index of the call about to be made. -/
def retryLoop (op : Nat → Except DatabaseError α) :
    Nat → Nat → Except DatabaseError α × Nat
  | attempt, 0 =>
    match op attempt with
    | .ok v => (.ok v, attempt + 1)
    | .error e => (.error e, attempt + 1)
  | attempt, r + 1 =>
    match op attempt with
    | .ok v => (.ok v, attempt + 1)
    | .error e =>
      if e.is_retryable then retryLoop op (attempt + 1) r
      else (.error e, attempt + 1)

/-- ConnectionManager::execute_with_retry, returning the result and the
number of invocations of the operation. -/
def execute_with_retry (max_retries : Nat) (op : Nat → Except DatabaseError α) :
    Except DatabaseError α × Nat :=
  retryLoop op 0 max_retries

/-!  Authentication (auth.rs).

Wall-clock time (chrono Utc::now, millisecond precision) is passed in
explicitly as an Int parameter named now.  The token cache behind the
RwLock becomes an Option AuthToken carried in the manager state. -/

/-- Credentials from auth.rs (certificate payload elided to its presence,
which is all validate inspects). -/
structure Credentials where
  username : String
  password : Option String
  certificate : Option (List Nat)
  token : Option String
deriving DecidableEq, Repr

/-- Credentials::validate: non-empty username and at least one of
password, certificate or token. -/
def Credentials.validate (c : Credentials) : Except DatabaseError Unit :=
  if c.username = "" then
    .error (.AuthenticationFailed "Username is required")
  else if c.password = none ∧ c.certificate = none ∧ c.token = none then
    .error (.AuthenticationFailed
      "At least one authentication method (password, certificate, or token) is required")
  else .ok ()

/-- AuthToken from auth.rs; the DateTime expiration becomes an Int
millisecond timestamp and the signature a byte list. -/
structure AuthToken where
  user_id : Nat
  roles : List Role
  expiration : Int
  signature : List Nat
deriving DecidableEq, Repr

/-- AuthToken::is_expired: Utc::now() > self.expiration (strict). -/
def AuthToken.is_expired (t : AuthToken) (now : Int) : Bool :=
  now > t.expiration

/-- Mutable state of AuthenticationManager: the credentials and ttl are
immutable configuration, the token cell is the RwLock contents. -/
structure AuthManager where
  credentials : Credentials
  token : Option AuthToken
  token_ttl : Nat
deriving DecidableEq, Repr

/-- AuthenticationManager::authenticate: validate credentials then issue
and store a fresh token expiring at now + ttl (the placeholder server
grants user id 1, role User, a 32-byte zero signature). -/
def AuthManager.authenticate (m : AuthManager) (now : Int) :
    AuthManager × Except DatabaseError AuthToken :=
  match m.credentials.validate with
  | .error e => (m, .error e)
  | .ok () =>
    let t : AuthToken :=
      ⟨1, [Role.User], now + (m.token_ttl : Int), List.replicate 32 0⟩
    ({ m with token := some t }, .ok t)

/-- AuthenticationManager::get_valid_token: return the cached token if
present and not expired, otherwise authenticate. -/
def AuthManager.get_valid_token (m : AuthManager) (now : Int) :
    AuthManager × Except DatabaseError AuthToken :=
  match m.token with
  | some t => if ¬ t.is_expired now then (m, .ok t) else m.authenticate now
  | none => m.authenticate now

/-- AuthenticationManager::refresh_token: fail with AuthenticationFailed
when no token is held; re-authenticate when the held token is expired;
otherwise issue a token with the same identity and roles and a fresh
expiration, replacing the cached one. -/
def AuthManager.refresh_token (m : AuthManager) (now : Int) :
    AuthManager × Except DatabaseError AuthToken :=
  match m.token with
  | none => (m, .error (.AuthenticationFailed "No token to refresh"))
  | some t =>
    if t.is_expired now then m.authenticate now
    else
      let t2 : AuthToken :=
        ⟨t.user_id, t.roles, now + (m.token_ttl : Int), List.replicate 32 0⟩
      ({ m with token := some t2 }, .ok t2)

/-- AuthenticationManager::logout: fail when no token is held, otherwise
clear the cache. -/
def AuthManager.logout (m : AuthManager) :
    AuthManager × Except DatabaseError Unit :=
  match m.token with
  | none => (m, .error (.AuthenticationFailed "No token to logout"))
  | some _ => ({ m with token := none }, .ok ())

/-!  Transaction (transaction.rs).

A Transaction owns a dedicated connection; all the claims about it
concern its resolved flag (is_committed) and which wire messages an
operation sends, so the connection is represented by the list of wire
messages the operation pushes onto it, and each request/response
exchange receives its observed outcome as an argument. -/

/-- Value enumeration from types.rs.  The f64 payload of Float is
represented by its 64-bit pattern (a Nat); no verified operation
inspects it. -/
inductive Value where
  | Null
  | Bool (b : Bool)
  | Int (i : Int)
  | Float (bits : Nat)
  | String (s : String)
  | Bytes (bs : List Nat)
  | Timestamp (millis : Int)
deriving DecidableEq, Repr

/-- DataType enumeration from result.rs. -/
inductive DataType where
  | Int
  | Float
  | String
  | Bool
  | Bytes
  | Timestamp
  | Null
deriving DecidableEq, Repr

/-- ColumnMetadata from result.rs. -/
structure ColumnMetadata where
  name : String
  data_type : DataType
  nullable : Bool
  ordinal : Nat
deriving DecidableEq, Repr

/-- ExecuteResult from data_client.rs. -/
structure ExecuteResult where
  rows_affected : Nat
  last_insert_id : Option Int
deriving DecidableEq, Repr

/-- QueryResult from result.rs; QueryResult::from_raw stores the columns
and one value list per row (each Row also carries a shared pointer to
the columns, which adds no information). -/
structure QueryResult where
  columns : List ColumnMetadata
  rows : List (List Value)
deriving DecidableEq, Repr

/-- ExecuteResponse payload from transaction.rs. -/
structure ExecuteResponse where
  rows_affected : Nat
  last_insert_id : Option Int
  error : Option String
deriving DecidableEq, Repr

/-- QueryResponse payload from transaction.rs. -/
structure QueryResponse where
  columns : List ColumnMetadata
  rows : List (List Value)
  error : Option String
deriving DecidableEq, Repr

/-- TransactionResponse from transaction.rs. -/
inductive TransactionResponse where
  | BeginSuccess
  | CommitSuccess
  | RollbackSuccess
  | Error (message : String)
deriving DecidableEq, Repr

/-- One wire message sent by a transaction over its dedicated connection
(the serialized ExecuteRequest / QueryRequest / TransactionRequest
payload, by its contents). -/
inductive TxnWire where
  | execReq (sql : String) (params : List Value) (transaction_id : Nat)
      (auth_token : List Nat)
  | queryReq (sql : String) (params : List Value) (transaction_id : Nat)
      (auth_token : List Nat)
  | commitReq (transaction_id : Nat)
  | rollbackReq (transaction_id : Nat)
deriving DecidableEq, Repr

/-- Observed outcome of one send_request exchange whose reply payload is
deserialized as type ρ: the transport level fails (send_request returns
Err), the payload fails to deserialize, or a value is obtained. -/
inductive WireOutcome (ρ : Type) where
  | sendErr (e : DatabaseError)
  | deserErr (msg : String)
  | resp (r : ρ)
deriving DecidableEq, Repr

/-- Transaction state from transaction.rs: the id and the single
resolved flag (field name is_committed as in the source; it is set by
both commit and rollback). -/
structure Transaction where
  transaction_id : Nat
  auth_token : AuthToken
  is_committed : Bool
deriving DecidableEq, Repr

/-- Transaction::check_active. -/
def Transaction.check_active (t : Transaction) : Except DatabaseError Unit :=
  if t.is_committed then
    .error (.InternalError "Transaction"
      "Transaction has already been committed or rolled back")
  else .ok ()

/-- Transaction::rollback_internal: no-op when already resolved;
otherwise send a rollback control message and mark resolved only on a
RollbackSuccess reply.  Returns the new state, the wire messages sent,
and the result. -/
def Transaction.rollback_internal (t : Transaction)
    (reply : WireOutcome TransactionResponse) :
    Transaction × List TxnWire × Except DatabaseError Unit :=
  if t.is_committed then (t, [], .ok ())
  else
    let sent := [TxnWire.rollbackReq t.transaction_id]
    match reply with
    | .sendErr e => (t, sent, .error e)
    | .deserErr m => (t, sent, .error (.SerializationError
        ("Failed to deserialize transaction response: " ++ m)))
    | .resp .RollbackSuccess => ({ t with is_committed := true }, sent, .ok ())
    | .resp (.Error message) => (t, sent, .error
        (.TransactionAborted t.transaction_id message))
    | .resp _ => (t, sent, .error
        (.InternalError "Transaction" "Unexpected response to rollback"))

/-- Transaction::rollback (public): delegates to rollback_internal. -/
def Transaction.rollback (t : Transaction)
    (reply : WireOutcome TransactionResponse) :
    Transaction × List TxnWire × Except DatabaseError Unit :=
  t.rollback_internal reply

/-- Transaction::execute_with_params: check_active, send the execute
request tagged with the transaction id and token signature, and on a
transport failure or an error field in the response attempt an automatic
rollback (whose own outcome is discarded) before returning the original
error. -/
def Transaction.execute_with_params (t : Transaction) (sql : String)
    (params : List Value) (reply : WireOutcome ExecuteResponse)
    (rollbackReply : WireOutcome TransactionResponse) :
    Transaction × List TxnWire × Except DatabaseError ExecuteResult :=
  match t.check_active with
  | .error e => (t, [], .error e)
  | .ok () =>
    let req := TxnWire.execReq sql params t.transaction_id t.auth_token.signature
    match reply with
    | .sendErr e =>
      let (t2, sent2, _) := t.rollback_internal rollbackReply
      (t2, req :: sent2, .error e)
    | .deserErr m => (t, [req], .error (.SerializationError
        ("Failed to deserialize execute response: " ++ m)))
    | .resp r =>
      match r.error with
      | some err =>
        let (t2, sent2, _) := t.rollback_internal rollbackReply
        (t2, req :: sent2, .error (.InternalError "Transaction" err))
      | none => (t, [req], .ok ⟨r.rows_affected, r.last_insert_id⟩)

/-- Transaction::query_with_params: same shape as execute_with_params
with a query request and a QueryResult built by QueryResult::from_raw. -/
def Transaction.query_with_params (t : Transaction) (sql : String)
    (params : List Value) (reply : WireOutcome QueryResponse)
    (rollbackReply : WireOutcome TransactionResponse) :
    Transaction × List TxnWire × Except DatabaseError QueryResult :=
  match t.check_active with
  | .error e => (t, [], .error e)
  | .ok () =>
    let req := TxnWire.queryReq sql params t.transaction_id t.auth_token.signature
    match reply with
    | .sendErr e =>
      let (t2, sent2, _) := t.rollback_internal rollbackReply
      (t2, req :: sent2, .error e)
    | .deserErr m => (t, [req], .error (.SerializationError
        ("Failed to deserialize query response: " ++ m)))
    | .resp r =>
      match r.error with
      | some err =>
        let (t2, sent2, _) := t.rollback_internal rollbackReply
        (t2, req :: sent2, .error (.InternalError "Transaction" err))
      | none => (t, [req], .ok ⟨r.columns, r.rows⟩)

/-- Transaction::commit: check_active, send a commit control message,
mark resolved on CommitSuccess; on an Error reply attempt rollback and
return TransactionAborted; on a transport failure attempt rollback and
propagate the transport error. -/
def Transaction.commit (t : Transaction)
    (reply : WireOutcome TransactionResponse)
    (rollbackReply : WireOutcome TransactionResponse) :
    Transaction × List TxnWire × Except DatabaseError Unit :=
  match t.check_active with
  | .error e => (t, [], .error e)
  | .ok () =>
    let req := TxnWire.commitReq t.transaction_id
    match reply with
    | .sendErr e =>
      let (t2, sent2, _) := t.rollback_internal rollbackReply
      (t2, req :: sent2, .error e)
    | .deserErr m => (t, [req], .error (.SerializationError
        ("Failed to deserialize transaction response: " ++ m)))
    | .resp .CommitSuccess => ({ t with is_committed := true }, [req], .ok ())
    | .resp (.Error message) =>
      let (t2, sent2, _) := t.rollback_internal rollbackReply
      (t2, req :: sent2, .error
        (.TransactionAborted t.transaction_id message))
    | .resp _ => (t, [req], .error
        (.InternalError "Transaction" "Unexpected response to commit"))

/-!  Connection pool (connection.rs).

Each pooled connection is represented by its two timestamps; the
underlying socket plays no role in the claims.  Wall-clock reads are
passed in as now.  The outcome of dialing the configured hosts inside
create_connection is passed in as one Option DatabaseError per host
(none meaning that host accepted the connection). -/

/-- PoolConfig from types.rs (u32 and u64 fields become Nat). -/
structure PoolConfig where
  min_connections : Nat
  max_connections : Nat
  connection_timeout_ms : Nat
  idle_timeout_ms : Nat
  max_lifetime_ms : Nat
deriving DecidableEq, Repr

/-- PooledConnection from connection.rs, reduced to its timestamps. -/
structure PooledConnection where
  created_at : Int
  last_used : Int
deriving DecidableEq, Repr

/-- Conversion of an i64 difference to u64 by the Rust as-cast
(two's-complement wrap), as in (now - self.last_used) as u64. -/
def intAsU64 (d : Int) : Nat := (d % (2 ^ 64 : Int)).toNat

/-- PooledConnection::is_idle. -/
def PooledConnection.is_idle (c : PooledConnection) (idle_timeout_ms : Nat)
    (now : Int) : Bool :=
  intAsU64 (now - c.last_used) > idle_timeout_ms

/-- PooledConnection::is_expired. -/
def PooledConnection.is_expired (c : PooledConnection) (max_lifetime_ms : Nat)
    (now : Int) : Bool :=
  intAsU64 (now - c.created_at) > max_lifetime_ms

/-- PooledConnection::touch. -/
def PooledConnection.touch (c : PooledConnection) (now : Int) :
    PooledConnection :=
  { c with last_used := now }

/-- PooledConnection::new. -/
def PooledConnection.fresh (now : Int) : PooledConnection :=
  ⟨now, now⟩

/-- Mutable state of ConnectionPool: the available deque and the
total-connection counter. -/
structure PoolState where
  available : List PooledConnection
  total_connections : Nat
deriving DecidableEq, Repr

/-- Immutable configuration of ConnectionPool. -/
structure Pool where
  config : PoolConfig
  hosts : List String
  timeout_ms : Nat
deriving DecidableEq, Repr

/-- The retain predicate of ConnectionPool::get_connection: keep a
connection iff it is neither expired nor idle. -/
def poolKeep (cfg : PoolConfig) (now : Int) (c : PooledConnection) : Bool :=
  ¬ c.is_expired cfg.max_lifetime_ms now ∧ ¬ c.is_idle cfg.idle_timeout_ms now

/-- ConnectionPool::create_connection: with no hosts configured fail;
otherwise try each host in list order (connects is the per-host dial
outcome, none meaning success), incrementing the counter and returning a
fresh pooled connection on the first success, or the last error when
every host fails. -/
def tryHostsLoop (st : PoolState) (now : Int) :
    List (Option DatabaseError) → Option DatabaseError →
    PoolState × Except DatabaseError PooledConnection
  | [], last =>
    (st, .error (last.getD
      (.InternalError "ConnectionPool" "Failed to connect to any host")))
  | none :: _, _ =>
    ({ st with total_connections := st.total_connections + 1 },
      .ok (PooledConnection.fresh now))
  | some e :: rest, _ => tryHostsLoop st now rest (some e)

def createConnection (p : Pool) (st : PoolState) (now : Int)
    (connects : List (Option DatabaseError)) :
    PoolState × Except DatabaseError PooledConnection :=
  if p.hosts.isEmpty then
    (st, .error (.InternalError "ConnectionPool" "No hosts configured"))
  else
    tryHostsLoop st now (connects.take p.hosts.length) none

/-- ConnectionPool::get_connection: purge expired and idle connections
from the available set (without touching the counter), hand out the
front one if any remains (refreshing last_used), otherwise fail with the
pool-exhausted InternalError when the counter has reached
max_connections, and otherwise dial a new connection. -/
def getConnection (p : Pool) (st : PoolState) (now : Int)
    (connects : List (Option DatabaseError)) :
    PoolState × Except DatabaseError PooledConnection :=
  let purged := st.available.filter (poolKeep p.config now)
  match purged with
  | c :: rest =>
    ({ st with available := rest }, .ok (c.touch now))
  | [] =>
    if st.total_connections ≥ p.config.max_connections then
      ({ st with available := [] }, .error (.InternalError "ConnectionPool"
        ("Connection pool exhausted (max: " ++
          toString p.config.max_connections ++ ")")))
    else
      createConnection p { st with available := [] } now connects

/-- ConnectionPool::return_connection: discard the connection and
decrement the counter when it is expired or idle, otherwise push it onto
the back of the available set. -/
def returnConnection (p : Pool) (st : PoolState) (c : PooledConnection)
    (now : Int) : PoolState :=
  if c.is_expired p.config.max_lifetime_ms now ∨
      c.is_idle p.config.idle_timeout_ms now then
    { st with total_connections := st.total_connections - 1 }
  else
    { st with available := st.available ++ [c] }

/-- One pool operation together with the environment inputs it consumed:
a get_connection call (with the clock reading and dial outcomes) or a
return_connection call by a caller holding a checked-out connection. -/
inductive PoolStep (p : Pool) :
    PoolState × Nat → PoolState × Nat → Prop where
  | getOk {st st' : PoolState} {k : Nat} {now : Int}
      {connects : List (Option DatabaseError)} {c : PooledConnection} :
      getConnection p st now connects = (st', .ok c) →
      PoolStep p (st, k) (st', k + 1)
  | getErr {st st' : PoolState} {k : Nat} {now : Int}
      {connects : List (Option DatabaseError)} {e : DatabaseError} :
      getConnection p st now connects = (st', .error e) →
      PoolStep p (st, k) (st', k)
  | ret {st : PoolState} {k : Nat} {c : PooledConnection} {now : Int} :
      PoolStep p (st, k + 1) (returnConnection p st c now, k)

/-- States reachable from the freshly constructed pool (empty available
set, zero counter, nothing checked out) by any sequence of pool
operations. -/
def PoolReachable (p : Pool) (s : PoolState × Nat) : Prop :=
  Relation.ReflTransGen (PoolStep p) (⟨[], 0⟩, 0) s

/-!  Node health (connection.rs). -/

/-- NodeHealth from connection.rs. -/
structure NodeHealth where
  node_id : Nat
  is_healthy : Bool
  last_check : Int
  consecutive_failures : Nat
deriving DecidableEq, Repr

/-- NodeHealth::new: healthy with zero failures. -/
def NodeHealth.fresh (node_id : Nat) (now : Int) : NodeHealth :=
  ⟨node_id, true, now, 0⟩

/-- NodeHealth::mark_healthy. -/
def NodeHealth.mark_healthy (h : NodeHealth) (now : Int) : NodeHealth :=
  { h with is_healthy := true, consecutive_failures := 0, last_check := now }

/-- NodeHealth::mark_unhealthy. -/
def NodeHealth.mark_unhealthy (h : NodeHealth) (now : Int) : NodeHealth :=
  { h with is_healthy := false,
           consecutive_failures := h.consecutive_failures + 1,
           last_check := now }

/-- The node-health HashMap, as a lookup function. -/
def HealthMap : Type := Nat → Option NodeHealth

/-- HashMap::insert on the health map. -/
def insertHealth (m : HealthMap) (k : Nat) (v : NodeHealth) : HealthMap :=
  fun k' => if k' = k then some v else m k'

/-- Loop body of ConnectionManager::health_check_all_nodes over the host
list: idx is the index of the current host, probe idx tells whether the
connect-and-ping against host idx succeeded.  For each host a fresh
NodeHealth is created and marked healthy or unhealthy once, pushed onto
the results and inserted into the map (replacing any previous entry for
that node id). -/
def healthCheckGo (probe : Nat → Bool) (now : Int) :
    List String → Nat → HealthMap → List NodeHealth × HealthMap
  | [], _, m => ([], m)
  | _ :: hs, idx, m =>
    let node_id := idx + 1
    let health :=
      if probe idx then (NodeHealth.fresh node_id now).mark_healthy now
      else (NodeHealth.fresh node_id now).mark_unhealthy now
    let step := healthCheckGo probe now hs (idx + 1) (insertHealth m node_id health)
    (health :: step.1, step.2)

/-- ConnectionManager::health_check_all_nodes: probe every configured
host in order and return the snapshot list and the updated map. -/
def health_check_all_nodes (hosts : List String) (probe : Nat → Bool)
    (now : Int) (m : HealthMap) : List NodeHealth × HealthMap :=
  healthCheckGo probe now hosts 0 m

/-- ConnectionManager::mark_node_unhealthy: increment an existing entry
or insert a fresh one marked unhealthy. -/
def markNodeUnhealthy (m : HealthMap) (node_id : Nat) (now : Int) :
    HealthMap :=
  match m node_id with
  | some h => insertHealth m node_id (h.mark_unhealthy now)
  | none => insertHealth m node_id ((NodeHealth.fresh node_id now).mark_unhealthy now)

/-!  Wire message codec (protocol.rs).

Bytes are Nats below 256.  bincode (v1, default configuration) encodes
the Message struct as the concatenation of its fields in declaration
order: u64 as 8 little-endian bytes, i64 as 8 little-endian bytes of the
two's-complement pattern, a unit enum variant as its u32 index in 4
little-endian bytes, Vec of u8 as a u64 length followed by the raw
bytes, u32 as 4 little-endian bytes. -/

/-- Little-endian byte encoding of n in w bytes (low byte first). -/
def natToLEBytes : Nat → Nat → List Nat
  | 0, _ => []
  | w + 1, n => n % 256 :: natToLEBytes w (n / 256)

/-- Reads w little-endian bytes off the front of a byte list, returning
the value and the remaining bytes. -/
def readLENat : Nat → List Nat → Option (Nat × List Nat)
  | 0, bs => some (0, bs)
  | _ + 1, [] => none
  | w + 1, b :: bs =>
    match readLENat w bs with
    | none => none
    | some (v, rest) => some (b + 256 * v, rest)

/-- Little-endian encoding of a signed value in w bytes, by its
two's-complement pattern. -/
def intToLEBytes (w : Nat) (i : Int) : List Nat :=
  natToLEBytes w (i % ((2 : Int) ^ (8 * w))).toNat

/-- Reads w little-endian bytes as a signed two's-complement value. -/
def readLEInt (w : Nat) (bs : List Nat) : Option (Int × List Nat) :=
  match readLENat w bs with
  | none => none
  | some (v, rest) =>
    some (if v < 2 ^ (8 * w - 1) then (v : Int) else (v : Int) - 2 ^ (8 * w), rest)

/-- MessageType enumeration from protocol.rs. -/
inductive MessageType where
  | Ping
  | Pong
  | Data
  | Ack
  | Error
  | Heartbeat
  | ClusterJoin
  | ClusterLeave
  | Replication
  | Transaction
deriving DecidableEq, Repr

/-- The one-byte discriminant used for the checksum input, from the
explicit match in Message::calculate_checksum. -/
def MessageType.discriminant : MessageType → Nat
  | .Ping => 0
  | .Pong => 1
  | .Data => 2
  | .Ack => 3
  | .Error => 4
  | .Heartbeat => 5
  | .ClusterJoin => 6
  | .ClusterLeave => 7
  | .Replication => 8
  | .Transaction => 9

/-- The bincode variant index of a MessageType (its position in the
declaration order, serialized as a u32). -/
def MessageType.variantIndex : MessageType → Nat
  | .Ping => 0
  | .Pong => 1
  | .Data => 2
  | .Ack => 3
  | .Error => 4
  | .Heartbeat => 5
  | .ClusterJoin => 6
  | .ClusterLeave => 7
  | .Replication => 8
  | .Transaction => 9

/-- Inverse of the bincode variant index, as bincode deserialization of
the enum (failing on an out-of-range index). -/
def MessageType.ofIndex : Nat → Option MessageType
  | 0 => some .Ping
  | 1 => some .Pong
  | 2 => some .Data
  | 3 => some .Ack
  | 4 => some .Error
  | 5 => some .Heartbeat
  | 6 => some .ClusterJoin
  | 7 => some .ClusterLeave
  | 8 => some .Replication
  | 9 => some .Transaction
  | _ => none

/-- Message from protocol.rs (NodeId = u64, Timestamp = i64). -/
structure Message where
  sender : Nat
  recipient : Nat
  sequence_number : Nat
  timestamp : Int
  message_type : MessageType
  payload : List Nat
  checksum : Nat
deriving DecidableEq, Repr

/-- One round of the reflected CRC-32 bit loop (polynomial 0xEDB88320,
as computed by the crc32fast crate). -/
def crc32Round (c : Nat) : Nat :=
  if c % 2 = 1 then (c / 2) ^^^ 0xEDB88320 else c / 2

/-- CRC-32 update for one input byte: xor the byte into the low bits and
run eight rounds of the bit loop. -/
def crc32UpdateByte (c b : Nat) : Nat :=
  crc32Round (crc32Round (crc32Round (crc32Round
    (crc32Round (crc32Round (crc32Round (crc32Round (c ^^^ b % 256))))))))

/-- CRC-32 (IEEE, reflected) of a byte list: initial value 0xFFFFFFFF,
per-byte update, final complement. -/
def crc32 (bs : List Nat) : Nat :=
  (bs.foldl crc32UpdateByte 0xFFFFFFFF) ^^^ 0xFFFFFFFF

/-- Message::calculate_checksum: CRC-32 over the little-endian bytes of
sender, recipient, sequence number and timestamp, the one-byte
message-type discriminant, and the raw payload, in that order; the
checksum field itself is excluded. -/
def Message.calculate_checksum (m : Message) : Nat :=
  crc32 (natToLEBytes 8 m.sender ++ (natToLEBytes 8 m.recipient ++
    (natToLEBytes 8 m.sequence_number ++ (intToLEBytes 8 m.timestamp ++
      ([m.message_type.discriminant] ++ m.payload)))))

/-- Message::verify_checksum. -/
def Message.verify_checksum (m : Message) : Bool :=
  m.checksum = m.calculate_checksum

/-- Message::new: build the message with checksum 0, then store the
computed checksum. -/
def Message.new (sender recipient sequence_number : Nat) (timestamp : Int)
    (message_type : MessageType) (payload : List Nat) : Message :=
  let m : Message :=
    ⟨sender, recipient, sequence_number, timestamp, message_type, payload, 0⟩
  { m with checksum := m.calculate_checksum }

/-- bincode serialization of a Message (fields in declaration order). -/
def serializeMessage (m : Message) : List Nat :=
  natToLEBytes 8 m.sender ++ (natToLEBytes 8 m.recipient ++
    (natToLEBytes 8 m.sequence_number ++ (intToLEBytes 8 m.timestamp ++
      (natToLEBytes 4 m.message_type.variantIndex ++
        (natToLEBytes 8 m.payload.length ++
          (m.payload ++ natToLEBytes 4 m.checksum))))))

/-- bincode deserialization of a Message: read each field in order,
failing on truncated input or an invalid enum index (trailing bytes are
permitted, as by bincode v1 deserialize). -/
def parseMessage (bs : List Nat) : Option Message :=
  match readLENat 8 bs with
  | none => none
  | some (sender, bs1) =>
  match readLENat 8 bs1 with
  | none => none
  | some (recipient, bs2) =>
  match readLENat 8 bs2 with
  | none => none
  | some (seq, bs3) =>
  match readLEInt 8 bs3 with
  | none => none
  | some (ts, bs4) =>
  match readLENat 4 bs4 with
  | none => none
  | some (tyIdx, bs5) =>
  match MessageType.ofIndex tyIdx with
  | none => none
  | some ty =>
  match readLENat 8 bs5 with
  | none => none
  | some (plen, bs6) =>
  if plen ≤ bs6.length then
    match readLENat 4 (bs6.drop plen) with
    | none => none
    | some (ck, _) =>
      some ⟨sender, recipient, seq, ts, ty, bs6.take plen, ck⟩
  else none

/-- MessageCodec from protocol.rs: the configured maximum message size
(default 1 MiB). -/
structure MessageCodec where
  max_message_size : Nat
deriving DecidableEq, Repr

/-- MessageCodec::new. -/
def MessageCodec.default : MessageCodec := ⟨1024 * 1024⟩

/-- MessageCodec::encode: serialize, then fail with MessageTooLarge when
the encoding exceeds the maximum size. -/
def MessageCodec.encode (c : MessageCodec) (m : Message) :
    Except DatabaseError (List Nat) :=
  let encoded := serializeMessage m
  if encoded.length > c.max_message_size then
    .error (.MessageTooLarge encoded.length c.max_message_size)
  else .ok encoded

/-- MessageCodec::decode: reject oversized input, deserialize, then
verify the checksum. -/
def MessageCodec.decode (c : MessageCodec) (data : List Nat) :
    Except DatabaseError Message :=
  if data.length > c.max_message_size then
    .error (.MessageTooLarge data.length c.max_message_size)
  else
    match parseMessage data with
    | none => .error (.SerializationError "Failed to deserialize message")
    | some m =>
      if m.verify_checksum then .ok m
      else .error (.ChecksumMismatch m.calculate_checksum m.checksum)

/-- MessageCodec::encode_with_length: the encoding preceded by its
length as 4 big-endian bytes. -/
def MessageCodec.encode_with_length (c : MessageCodec) (m : Message) :
    Except DatabaseError (List Nat) :=
  match c.encode m with
  | .error e => .error e
  | .ok encoded =>
    .ok ((natToLEBytes 4 encoded.length).reverse ++ encoded)

/-- Concrete single-connection pool used in pool claims: one host, a
connection cap of one, a 10 ms idle timeout and 100 ms maximum
lifetime. -/
def poolOneConn : Pool := ⟨⟨0, 1, 5000, 10, 100⟩, ["node1"], 5000⟩

/-!  Theorems.  Each claim of the specification gets one theorem (plus a
witness instantiation when the theorem carries hypotheses, and a
counterexample when the claim as stated fails on the code). -/

/-- Helper for C5: when every attempt fails retryably, the retry loop
started at attempt a with r retries left makes r + 1 further calls and
returns the error of attempt a + r. -/
theorem retryLoop_const_error (α : Type) (errf : Nat → DatabaseError)
    (hretry : ∀ i, (errf i).is_retryable = true) :
    ∀ (r a : Nat),
      retryLoop ((fun i => .error (errf i)) : Nat → Except DatabaseError α) a r =
      (.error (errf (a + r)), a + r + 1) := by
  intro r
  induction r with
  | zero => intro a; simp [retryLoop]
  | succ r ih =>
    intro a
    have h : a + 1 + r = a + (r + 1) := by omega
    simp [retryLoop, hretry a, ih (a + 1), h]

/-- C5: for every retry configuration, an operation failing retryably on
every invocation is invoked exactly max_retries + 1 times by
execute_with_retry, and the error of the last invocation (attempt index
max_retries) is returned. -/
theorem C5_retry_count_and_last_error (α : Type) (max_retries : Nat)
    (errf : Nat → DatabaseError)
    (hretry : ∀ i, (errf i).is_retryable = true) :
    execute_with_retry max_retries
      ((fun i => .error (errf i)) : Nat → Except DatabaseError α) =
      (.error (errf max_retries), max_retries + 1) := by
  unfold execute_with_retry
  simpa using retryLoop_const_error α errf hretry max_retries 0

/-- Witness for C5 at max_retries = 2 and a distinct error per attempt:
three invocations happen and the attempt-2 error comes back. -/
theorem C5_witness :
    execute_with_retry 2
      (fun i => (.error (.ConnectionTimeout "node1" i) :
        Except DatabaseError Unit)) =
      (.error (.ConnectionTimeout "node1" 2), 3) :=
  C5_retry_count_and_last_error Unit 2
    (fun i => .ConnectionTimeout "node1" i) (fun _ => rfl)

/-- Counterexample for C7 as stated: DatabaseError::is_retryable
classifies ConnectionRefused as NOT retryable, so an operation that
always fails with connection-refused is invoked exactly once by
execute_with_retry even with retry budget left. -/
theorem C7_counterexample :
    (DatabaseError.ConnectionRefused "node1").is_retryable = false ∧
    execute_with_retry 3
      (fun _ => (.error (.ConnectionRefused "node1") :
        Except DatabaseError Unit)) =
      (.error (.ConnectionRefused "node1"), 1) := by
  constructor
  · rfl
  · simp [execute_with_retry, retryLoop, DatabaseError.is_retryable]

/-- C7 amended: a connection-refused error is classified non-retryable
(only connection timeout, connection lost, generic network error and
operation timeout are retryable), so execute_with_retry returns it after
a single invocation regardless of the retry budget. -/
theorem C7_refused_never_retried :
    (∀ host, (DatabaseError.ConnectionRefused host).is_retryable = false) ∧
    ∀ (max_retries : Nat) (host : String),
      execute_with_retry max_retries
        (fun _ => (.error (.ConnectionRefused host) :
          Except DatabaseError Unit)) =
      (.error (.ConnectionRefused host), 1) := by
  refine ⟨fun _ => rfl, fun mr host => ?_⟩
  unfold execute_with_retry
  cases mr with
  | zero => simp [retryLoop]
  | succ r => simp [retryLoop, DatabaseError.is_retryable]

/-- C1: once a transaction is resolved, execute and query fail through
check_active sending no wire message, and a further rollback is a no-op
success that also sends no message. -/
theorem C1_resolved_transaction_inert (t : Transaction)
    (h : t.is_committed = true) (sql qsql : String)
    (params qparams : List Value) (er : WireOutcome ExecuteResponse)
    (qr : WireOutcome QueryResponse)
    (rb rb2 ctrl : WireOutcome TransactionResponse) :
    t.execute_with_params sql params er rb =
      (t, [], .error (.InternalError "Transaction"
        "Transaction has already been committed or rolled back")) ∧
    t.query_with_params qsql qparams qr rb2 =
      (t, [], .error (.InternalError "Transaction"
        "Transaction has already been committed or rolled back")) ∧
    t.rollback_internal ctrl = (t, [], .ok ()) := by
  refine ⟨?_, ?_, ?_⟩ <;>
    simp [Transaction.execute_with_params, Transaction.query_with_params,
      Transaction.rollback_internal, Transaction.check_active, h]

/-- Witness for C1 on a concrete resolved transaction. -/
theorem C1_witness :
    (Transaction.mk 7 ⟨1, [.User], 0, []⟩ true).execute_with_params
        "INSERT" [] (.resp ⟨1, none, none⟩) (.resp .RollbackSuccess) =
      (Transaction.mk 7 ⟨1, [.User], 0, []⟩ true, [],
        .error (.InternalError "Transaction"
          "Transaction has already been committed or rolled back")) ∧
    (Transaction.mk 7 ⟨1, [.User], 0, []⟩ true).query_with_params
        "SELECT" [] (.resp ⟨[], [], none⟩) (.resp .RollbackSuccess) =
      (Transaction.mk 7 ⟨1, [.User], 0, []⟩ true, [],
        .error (.InternalError "Transaction"
          "Transaction has already been committed or rolled back")) ∧
    (Transaction.mk 7 ⟨1, [.User], 0, []⟩ true).rollback_internal
        (.resp .RollbackSuccess) =
      (Transaction.mk 7 ⟨1, [.User], 0, []⟩ true, [], .ok ()) :=
  C1_resolved_transaction_inert (Transaction.mk 7 ⟨1, [.User], 0, []⟩ true)
    rfl "INSERT" "SELECT" [] [] (.resp ⟨1, none, none⟩) (.resp ⟨[], [], none⟩)
    (.resp .RollbackSuccess) (.resp .RollbackSuccess) (.resp .RollbackSuccess)

/-- C2: on an active transaction, a transport-level failure of an
execute or query exchange, or an application-level error reported in the
response, triggers exactly one rollback control message before the call
returns, and the returned error is the original operation error (the
transport error itself, or an InternalError carrying the server's
original error string), never a rollback or transaction-closed error. -/
theorem C2_auto_rollback_preserves_original_error (t : Transaction)
    (h : t.is_committed = false) (sql : String) (params : List Value)
    (e : DatabaseError) (err : String) (r : ExecuteResponse)
    (hr : r.error = some err) (q : QueryResponse) (hq : q.error = some err)
    (rb : WireOutcome TransactionResponse) :
    (t.execute_with_params sql params (.sendErr e) rb).2 =
      ([.execReq sql params t.transaction_id t.auth_token.signature,
        .rollbackReq t.transaction_id], .error e) ∧
    (t.execute_with_params sql params (.resp r) rb).2 =
      ([.execReq sql params t.transaction_id t.auth_token.signature,
        .rollbackReq t.transaction_id],
        .error (.InternalError "Transaction" err)) ∧
    (t.query_with_params sql params (.sendErr e) rb).2 =
      ([.queryReq sql params t.transaction_id t.auth_token.signature,
        .rollbackReq t.transaction_id], .error e) ∧
    (t.query_with_params sql params (.resp q) rb).2 =
      ([.queryReq sql params t.transaction_id t.auth_token.signature,
        .rollbackReq t.transaction_id],
        .error (.InternalError "Transaction" err)) := by
  refine ⟨?_, ?_, ?_, ?_⟩ <;>
    cases rb <;>
      simp [Transaction.execute_with_params, Transaction.query_with_params,
        Transaction.rollback_internal, Transaction.check_active, h, hr, hq]
  all_goals
    first
    | rfl
    | (rename_i resp; cases resp <;> simp)

/-- Witness for C2 on a concrete active transaction, with a transport
timeout and with a constraint-violation error string in the response. -/
theorem C2_witness :
    ((Transaction.mk 7 ⟨1, [.User], 0, []⟩ false).execute_with_params
        "INSERT" [] (.sendErr (.TimeoutError "send_request" 5000))
        (.resp .RollbackSuccess)).2 =
      ([.execReq "INSERT" [] 7 [], .rollbackReq 7],
        .error (.TimeoutError "send_request" 5000)) ∧
    ((Transaction.mk 7 ⟨1, [.User], 0, []⟩ false).execute_with_params
        "INSERT" [] (.resp ⟨0, none, some "constraint violation"⟩)
        (.resp .RollbackSuccess)).2 =
      ([.execReq "INSERT" [] 7 [], .rollbackReq 7],
        .error (.InternalError "Transaction" "constraint violation")) ∧
    ((Transaction.mk 7 ⟨1, [.User], 0, []⟩ false).query_with_params
        "INSERT" [] (.sendErr (.TimeoutError "send_request" 5000))
        (.resp .RollbackSuccess)).2 =
      ([.queryReq "INSERT" [] 7 [], .rollbackReq 7],
        .error (.TimeoutError "send_request" 5000)) ∧
    ((Transaction.mk 7 ⟨1, [.User], 0, []⟩ false).query_with_params
        "INSERT" [] (.resp ⟨[], [], some "constraint violation"⟩)
        (.resp .RollbackSuccess)).2 =
      ([.queryReq "INSERT" [] 7 [], .rollbackReq 7],
        .error (.InternalError "Transaction" "constraint violation")) :=
  C2_auto_rollback_preserves_original_error
    (Transaction.mk 7 ⟨1, [.User], 0, []⟩ false) rfl "INSERT" []
    (.TimeoutError "send_request" 5000) "constraint violation"
    ⟨0, none, some "constraint violation"⟩ rfl
    ⟨[], [], some "constraint violation"⟩ rfl (.resp .RollbackSuccess)

/-- Counterexample for C3 as stated: when the server answers the
rollback of an active transaction with an explicit Error response,
rollback_internal leaves is_committed = false — the transaction is NOT
marked Resolved, contrary to the claim that it is resolved either way. -/
theorem C3_counterexample :
    ((Transaction.mk 7 ⟨1, [.User], 0, []⟩ false).rollback_internal
        (.resp (.Error "disk full"))).1.is_committed = false ∧
    ((Transaction.mk 7 ⟨1, [.User], 0, []⟩ false).rollback_internal
        (.resp (.Error "disk full"))).2.2 =
      .error (.TransactionAborted 7 "disk full") := by
  constructor <;> rfl

/-- C3 amended: rolling back an active transaction marks it Resolved
only on a RollbackSuccess reply; on an explicit Error reply the
TransactionAborted error is returned and the transaction stays
unresolved (is_committed remains false). -/
theorem C3_rollback_resolution (t : Transaction)
    (h : t.is_committed = false) (msg : String) :
    t.rollback_internal (.resp .RollbackSuccess) =
      ({ t with is_committed := true },
        [.rollbackReq t.transaction_id], .ok ()) ∧
    t.rollback_internal (.resp (.Error msg)) =
      (t, [.rollbackReq t.transaction_id],
        .error (.TransactionAborted t.transaction_id msg)) := by
  constructor <;> simp [Transaction.rollback_internal, h]

/-- Witness for C3 amended on a concrete active transaction. -/
theorem C3_witness :
    (Transaction.mk 7 ⟨1, [.User], 0, []⟩ false).rollback_internal
        (.resp .RollbackSuccess) =
      (Transaction.mk 7 ⟨1, [.User], 0, []⟩ true, [.rollbackReq 7], .ok ()) ∧
    (Transaction.mk 7 ⟨1, [.User], 0, []⟩ false).rollback_internal
        (.resp (.Error "disk full")) =
      (Transaction.mk 7 ⟨1, [.User], 0, []⟩ false, [.rollbackReq 7],
        .error (.TransactionAborted 7 "disk full")) :=
  C3_rollback_resolution (Transaction.mk 7 ⟨1, [.User], 0, []⟩ false)
    rfl "disk full"

/-- Counterexample for C8 as stated: with no current token,
refresh_token fails with AuthenticationFailed instead of behaving like
get_valid_token (which authenticates and returns a fresh token on the
same state). -/
theorem C8_counterexample :
    (AuthManager.refresh_token
        ⟨⟨"admin", some "password", none, none⟩, none, 3600000⟩ 0).2 =
      .error (.AuthenticationFailed "No token to refresh") ∧
    (AuthManager.get_valid_token
        ⟨⟨"admin", some "password", none, none⟩, none, 3600000⟩ 0).2 =
      .ok ⟨1, [.User], 3600000, List.replicate 32 0⟩ := by
  constructor <;> rfl

/-- C8 amended: with no current token, refresh_token fails with
AuthenticationFailed (reason "No token to refresh") and leaves the state
unchanged; it does not perform a fresh authentication.  (The fallback to
full authentication happens only when a token exists but is expired.) -/
theorem C8_refresh_without_token_fails (m : AuthManager) (now : Int)
    (h : m.token = none) :
    m.refresh_token now =
      (m, .error (.AuthenticationFailed "No token to refresh")) := by
  simp [AuthManager.refresh_token, h]

/-- Witness for C8 amended on a concrete manager without a token. -/
theorem C8_witness :
    AuthManager.refresh_token
        ⟨⟨"admin", some "password", none, none⟩, none, 3600000⟩ 0 =
      (⟨⟨"admin", some "password", none, none⟩, none, 3600000⟩,
        .error (.AuthenticationFailed "No token to refresh")) :=
  C8_refresh_without_token_fails
    ⟨⟨"admin", some "password", none, none⟩, none, 3600000⟩ 0 rfl

/-- Counterexample for C10 as stated: at now exactly equal to the
expiration timestamp the claim calls the token invalid (validity is
strictly before expiration), but AuthToken::is_expired uses a strict
greater-than, so the token is treated as still valid and
get_valid_token returns it from the cache. -/
theorem C10_counterexample :
    AuthToken.is_expired ⟨1, [.User], 1000, []⟩ 1000 = false ∧
    (AuthManager.get_valid_token
        ⟨⟨"admin", some "password", none, none⟩,
          some ⟨1, [.User], 1000, []⟩, 3600000⟩ 1000).2 =
      .ok ⟨1, [.User], 1000, []⟩ := by
  constructor <;> rfl

/-- C10 amended: a token is treated as valid iff the current time is
less than OR EQUAL to its expiration (is_expired is strict), and
get_valid_token returns the cached token exactly in that case, falling
back to authenticate when the cached token is strictly past its
expiration. -/
theorem C10_token_validity_boundary (m : AuthManager) (t : AuthToken)
    (now : Int) (h : m.token = some t) :
    (t.is_expired now = false ↔ now ≤ t.expiration) ∧
    (now ≤ t.expiration → m.get_valid_token now = (m, .ok t)) ∧
    (t.expiration < now → m.get_valid_token now = m.authenticate now) := by
  refine ⟨?_, fun hle => ?_, fun hlt => ?_⟩
  · simp [AuthToken.is_expired]
  · have hx : ¬ now > t.expiration := by omega
    simp [AuthManager.get_valid_token, h, AuthToken.is_expired, hx]
  · have hx : now > t.expiration := hlt
    simp [AuthManager.get_valid_token, h, AuthToken.is_expired, hx]

/-- Witness for C10 amended at the expiration boundary itself. -/
theorem C10_witness :
    (AuthToken.is_expired ⟨1, [.User], 1000, []⟩ 1000 = false ↔
      (1000 : Int) ≤ 1000) ∧
    AuthManager.get_valid_token
        ⟨⟨"admin", some "password", none, none⟩,
          some ⟨1, [.User], 1000, []⟩, 3600000⟩ 1000 =
      (⟨⟨"admin", some "password", none, none⟩,
          some ⟨1, [.User], 1000, []⟩, 3600000⟩,
        .ok ⟨1, [.User], 1000, []⟩) := by
  have h := C10_token_validity_boundary
    ⟨⟨"admin", some "password", none, none⟩,
      some ⟨1, [.User], 1000, []⟩, 3600000⟩
    ⟨1, [.User], 1000, []⟩ 1000 rfl
  exact ⟨h.1, h.2.1 (by norm_num)⟩

/-- Helper for C9: healthCheckGo never changes map entries whose key is
at most the starting index (all inserted node ids are larger). -/
theorem healthCheckGo_lower (probe : Nat → Bool) (now : Int) :
    ∀ (hs : List String) (idx : Nat) (m : HealthMap) (k : Nat),
      k ≤ idx → (healthCheckGo probe now hs idx m).2 k = m k := by
  intro hs
  induction hs with
  | nil => intro idx m k _; rfl
  | cons h hs ih =>
    intro idx m k hk
    simp only [healthCheckGo]
    rw [ih (idx + 1) _ k (by omega)]
    simp [insertHealth]
    omega

/-- Helper for C9: the map entry recorded for the node probed at offset
i is the freshly created NodeHealth marked once according to the probe
outcome, independent of the incoming map. -/
theorem healthCheckGo_entry (probe : Nat → Bool) (now : Int) :
    ∀ (hs : List String) (i idx : Nat) (m : HealthMap), i < hs.length →
      (healthCheckGo probe now hs idx m).2 (idx + i + 1) =
        some (if probe (idx + i) then
            (NodeHealth.fresh (idx + i + 1) now).mark_healthy now
          else (NodeHealth.fresh (idx + i + 1) now).mark_unhealthy now) := by
  intro hs
  induction hs with
  | nil => intro i idx m hi; simp at hi
  | cons h hs ih =>
    intro i idx m hi
    cases i with
    | zero =>
      simp only [healthCheckGo]
      rw [healthCheckGo_lower probe now hs (idx + 1) _ (idx + 0 + 1) (by omega)]
      simp [insertHealth]
    | succ i =>
      simp only [healthCheckGo]
      have := ih i (idx + 1) (insertHealth m (idx + 1)
        (if probe idx then (NodeHealth.fresh (idx + 1) now).mark_healthy now
         else (NodeHealth.fresh (idx + 1) now).mark_unhealthy now))
        (by simpa using Nat.lt_of_succ_lt_succ hi)
      have harith : idx + 1 + i = idx + (i + 1) := by omega
      rw [harith] at this
      exact this

/-- Counterexample for C9 as stated: two consecutive all-failing runs of
health_check_all_nodes leave node 1 with consecutive_failures = 1, not
2 — each run records a fresh NodeHealth and discards the previously
recorded counter, so failures never accumulate to k across runs. -/
theorem C9_counterexample :
    ((health_check_all_nodes ["node1"] (fun _ => false) 1
        (health_check_all_nodes ["node1"] (fun _ => false) 0
          (fun _ => none)).2).2 1).map NodeHealth.consecutive_failures =
      some 1 ∧ (1 : Nat) ≠ 2 := by
  constructor
  · rfl
  · decide

/-- C9 amended: each run of health_check_all_nodes records, for the node
probed at offset i, a fresh snapshot whose consecutive_failures is 0 on
a healthy observation and 1 on an unhealthy one, regardless of whatever
the incoming health map recorded for that node; the counter accumulates
only through mark_node_unhealthy, not across runs of
health_check_all_nodes. -/
theorem C9_health_check_records_fresh_snapshot (hosts : List String)
    (probe : Nat → Bool) (now : Int) (m : HealthMap) (i : Nat)
    (hi : i < hosts.length) :
    (health_check_all_nodes hosts probe now m).2 (i + 1) =
      some ⟨i + 1, probe i, now, if probe i then 0 else 1⟩ := by
  have h := healthCheckGo_entry probe now hosts i 0 m (by simpa using hi)
  simp only [Nat.zero_add] at h
  unfold health_check_all_nodes
  rw [h]
  cases hp : probe i <;>
    simp [NodeHealth.fresh, NodeHealth.mark_healthy, NodeHealth.mark_unhealthy]

/-- Witness for C9 amended: a failing probe of a single host records one
consecutive failure even when the incoming map already recorded five. -/
theorem C9_witness :
    (health_check_all_nodes ["node1"] (fun _ => false) 7
        (fun _ => some ⟨1, false, 0, 5⟩)).2 1 =
      some ⟨1, false, 7, 1⟩ :=
  C9_health_check_records_fresh_snapshot ["node1"] (fun _ => false) 7
    (fun _ => some ⟨1, false, 0, 5⟩) 0 (by decide)

/-- Helper for C6: the host-trying loop either succeeds, incrementing
the counter by one, or fails leaving the state unchanged. -/
theorem tryHostsLoop_shape (st : PoolState) (now : Int) :
    ∀ (lst : List (Option DatabaseError)) (last : Option DatabaseError),
      tryHostsLoop st now lst last =
        ({ st with total_connections := st.total_connections + 1 },
          .ok (PooledConnection.fresh now)) ∨
      ∃ e, tryHostsLoop st now lst last = (st, .error e) := by
  intro lst
  induction lst with
  | nil => intro last; right; exact ⟨_, rfl⟩
  | cons hd rest ih =>
    intro last
    cases hd with
    | none => left; rfl
    | some e => exact ih (some e)

/-- Helper for C6: a successful get_connection either pops a purged
survivor (shrinking the available set, counter unchanged) or dials a
fresh connection (counter incremented, below the cap beforehand). -/
theorem getConnection_ok_shape (p : Pool) (st st' : PoolState) (now : Int)
    (connects : List (Option DatabaseError)) (c : PooledConnection)
    (h : getConnection p st now connects = (st', .ok c)) :
    (st'.available.length + 1 ≤ st.available.length ∧
      st'.total_connections = st.total_connections) ∨
    (st'.available = [] ∧
      st'.total_connections = st.total_connections + 1 ∧
      st.total_connections < p.config.max_connections) := by
  unfold getConnection at h
  rcases hf : st.available.filter (poolKeep p.config now) with _ | ⟨c0, rest⟩
  · rw [hf] at h
    simp only at h
    by_cases hcap : st.total_connections ≥ p.config.max_connections
    · rw [if_pos hcap] at h
      exact absurd (congrArg (fun x => x.2) h).symm (by simp)
    · rw [if_neg hcap] at h
      unfold createConnection at h
      by_cases hhosts : p.hosts.isEmpty
      · rw [if_pos hhosts] at h
        exact absurd (congrArg (fun x => x.2) h).symm (by simp)
      · rw [if_neg hhosts] at h
        rcases tryHostsLoop_shape { st with available := [] } now
            (connects.take p.hosts.length) none with hs | ⟨e, hs⟩
        · rw [hs] at h
          right
          have h1 := congrArg (fun x => x.1) h
          simp only at h1
          constructor
          · rw [← h1]
          constructor
          · rw [← h1]
          · omega
        · rw [hs] at h
          exact absurd (congrArg (fun x => x.2) h).symm (by simp)
  · rw [hf] at h
    simp only at h
    left
    have h1 := congrArg (fun x => x.1) h
    simp only at h1
    have hlen : (c0 :: rest).length ≤ st.available.length := by
      rw [← hf]; exact List.length_filter_le _ _
    constructor
    · rw [← h1]
      simpa using hlen
    · rw [← h1]

/-- Helper for C6: a failing get_connection never grows the available
set and never changes the counter. -/
theorem getConnection_err_shape (p : Pool) (st st' : PoolState) (now : Int)
    (connects : List (Option DatabaseError)) (e : DatabaseError)
    (h : getConnection p st now connects = (st', .error e)) :
    st'.available.length ≤ st.available.length ∧
    st'.total_connections = st.total_connections := by
  unfold getConnection at h
  rcases hf : st.available.filter (poolKeep p.config now) with _ | ⟨c0, rest⟩
  · rw [hf] at h
    simp only at h
    by_cases hcap : st.total_connections ≥ p.config.max_connections
    · rw [if_pos hcap] at h
      have h1 := congrArg (fun x => x.1) h
      simp only at h1
      rw [← h1]
      simp
    · rw [if_neg hcap] at h
      unfold createConnection at h
      by_cases hhosts : p.hosts.isEmpty
      · rw [if_pos hhosts] at h
        have h1 := congrArg (fun x => x.1) h
        simp only at h1
        rw [← h1]
        simp
      · rw [if_neg hhosts] at h
        rcases tryHostsLoop_shape { st with available := [] } now
            (connects.take p.hosts.length) none with hs | ⟨e2, hs⟩
        · rw [hs] at h
          exact absurd (congrArg (fun x => x.2) h).symm (by simp)
        · rw [hs] at h
          have h1 := congrArg (fun x => x.1) h
          simp only at h1
          rw [← h1]
          simp
  · rw [hf] at h
    simp only at h
    exact absurd (congrArg (fun x => x.2) h).symm (by simp)

/-- Helper for C6: one pool operation preserves the counter bounds. -/
theorem poolStep_preserves (p : Pool) {s s' : PoolState × Nat}
    (hstep : PoolStep p s s')
    (hinv : s.1.available.length + s.2 ≤ s.1.total_connections ∧
      s.1.total_connections ≤ p.config.max_connections) :
    s'.1.available.length + s'.2 ≤ s'.1.total_connections ∧
    s'.1.total_connections ≤ p.config.max_connections := by
  obtain ⟨hle, hcap⟩ := hinv
  cases hstep with
  | getOk hget =>
    rcases getConnection_ok_shape _ _ _ _ _ _ hget with
      ⟨hlen, htot⟩ | ⟨hav, htot, hlt⟩
    · constructor
      · simp only at hle ⊢; omega
      · simp only at hcap ⊢; omega
    · constructor
      · simp only at hle ⊢; rw [hav, htot]; simp; omega
      · simp only at hcap ⊢; omega
  | getErr hget =>
    obtain ⟨hlen, htot⟩ := getConnection_err_shape _ _ _ _ _ _ hget
    constructor
    · simp only at hle ⊢; omega
    · simp only at hcap ⊢; omega
  | ret =>
    rename_i st k c now
    unfold returnConnection
    by_cases hd : (c.is_expired p.config.max_lifetime_ms now ∨
        c.is_idle p.config.idle_timeout_ms now : Prop)
    · rw [if_pos hd]
      simp only at hle hcap ⊢
      constructor <;> omega
    · rw [if_neg hd]
      simp only [List.length_append, List.length_cons, List.length_nil] at hle hcap ⊢
      constructor <;> omega

/-- C6 amended: along every sequence of pool operations from a fresh
pool, the total-connection counter is an upper bound for available plus
checked-out connections (equality can fail, because the purge inside
get_connection drops stale connections without decrementing the
counter) and never exceeds max_connections; and whenever the purged
available set is empty with the counter at the cap, get_connection
fails immediately with the pool-exhausted InternalError. -/
theorem C6_pool_counter_invariant (p : Pool) :
    (∀ s, PoolReachable p s →
      s.1.available.length + s.2 ≤ s.1.total_connections ∧
      s.1.total_connections ≤ p.config.max_connections) ∧
    (∀ (st : PoolState) (now : Int)
      (connects : List (Option DatabaseError)),
      st.available.filter (poolKeep p.config now) = [] →
      p.config.max_connections ≤ st.total_connections →
      getConnection p st now connects =
        ({ st with available := [] },
          .error (.InternalError "ConnectionPool"
            ("Connection pool exhausted (max: " ++
              toString p.config.max_connections ++ ")")))) := by
  constructor
  · intro s hreach
    induction hreach with
    | refl => exact ⟨by simp, Nat.zero_le _⟩
    | tail hsteps hstep ih => exact poolStep_preserves p hstep ih
  · intro st now connects hempty hcap
    unfold getConnection
    rw [hempty]
    simp only
    rw [if_pos hcap]

/-- Witness for C6 amended: the invariant holds at the freshly built
single-connection pool, and a concrete at-capacity state with an empty
available set is refused with the pool-exhausted error. -/
theorem C6_witness :
    ((([] : List PooledConnection).length + 0 ≤ 0 ∧
      0 ≤ poolOneConn.config.max_connections)) ∧
    getConnection poolOneConn ⟨[], 1⟩ 0 [] =
      (⟨[], 1⟩, .error (.InternalError "ConnectionPool"
        "Connection pool exhausted (max: 1)")) := by
  constructor
  · exact (C6_pool_counter_invariant poolOneConn).1 (⟨[], 0⟩, 0)
      Relation.ReflTransGen.refl
  · have h := (C6_pool_counter_invariant poolOneConn).2 ⟨[], 1⟩ 0 []
      (by rfl) (by decide)
    simpa using h

/-- Counterexample for C6 as stated: dial one connection, return it,
let it go idle, then call get_connection again.  The purge drops the
idle connection from the available set without decrementing the
counter, so the reachable state has total_connections = 1 while
available plus checked-out is 0 — the claimed equality fails (and the
pool stays exhausted). -/
theorem C6_counterexample :
    PoolReachable poolOneConn (⟨[], 1⟩, 0) ∧
    ¬ ((⟨[], 1⟩ : PoolState).available.length + 0 =
        (⟨[], 1⟩ : PoolState).total_connections) := by
  constructor
  · have h1 : PoolStep poolOneConn (⟨[], 0⟩, 0) (⟨[], 1⟩, 1) :=
      @PoolStep.getOk poolOneConn ⟨[], 0⟩ ⟨[], 1⟩ 0 0 [none] ⟨0, 0⟩
        (by rfl)
    have h2 : PoolStep poolOneConn (⟨[], 1⟩, 1) (⟨[⟨0, 0⟩], 1⟩, 0) := by
      have e2 : returnConnection poolOneConn ⟨[], 1⟩ ⟨0, 0⟩ 0 =
          ⟨[⟨0, 0⟩], 1⟩ := by decide
      exact e2 ▸ @PoolStep.ret poolOneConn ⟨[], 1⟩ 0 ⟨0, 0⟩ 0
    have h3 : PoolStep poolOneConn (⟨[⟨0, 0⟩], 1⟩, 0) (⟨[], 1⟩, 0) :=
      @PoolStep.getErr poolOneConn ⟨[⟨0, 0⟩], 1⟩ ⟨[], 1⟩ 0 50 []
        (.InternalError "ConnectionPool" "Connection pool exhausted (max: 1)")
        (by rfl)
    exact Relation.ReflTransGen.tail (Relation.ReflTransGen.tail
      (Relation.ReflTransGen.tail Relation.ReflTransGen.refl h1) h2) h3
  · decide

/-- Helper for C4: reading w little-endian bytes off an encoding of n
followed by anything recovers n modulo 256 to the w. -/
theorem readLENat_append (w : Nat) :
    ∀ (n : Nat) (rest : List Nat),
      readLENat w (natToLEBytes w n ++ rest) = some (n % 256 ^ w, rest) := by
  induction w with
  | zero => intro n rest; simp [readLENat, natToLEBytes, Nat.mod_one]
  | succ w ih =>
    intro n rest
    have h : 256 ^ (w + 1) = 256 * 256 ^ w := by ring
    rw [h, Nat.mod_mul]
    simp [natToLEBytes, readLENat, ih]

/-- Helper for C4: the signed 8-byte round trip for any value in the
i64 range. -/
theorem readLEInt8_append (i : Int) (rest : List Nat)
    (h1 : -(2 ^ 63) ≤ i) (h2 : i < 2 ^ 63) :
    readLEInt 8 (intToLEBytes 8 i ++ rest) = some (i, rest) := by
  unfold intToLEBytes readLEInt
  simp only [readLENat_append]
  have hN : ((2 : Int) ^ (8 * 8)) = 18446744073709551616 := by norm_num
  have h8 : (256 : Nat) ^ 8 = 18446744073709551616 := by norm_num
  have hlt256 : (i % (2 : Int) ^ (8 * 8)).toNat < 256 ^ 8 := by
    rw [hN, h8]; omega
  rw [Nat.mod_eq_of_lt hlt256]
  have h63 : ((2 : Int) ^ 63) = 9223372036854775808 := by norm_num
  rw [h63] at h1 h2
  have h63n : (2 : Nat) ^ (8 * 8 - 1) = 9223372036854775808 := by norm_num
  rw [hN, h63n]
  simp only [Option.some.injEq, Prod.mk.injEq]
  refine ⟨?_, trivial⟩
  split
  · rename_i hlt
    omega
  · rename_i hge
    omega

/-- Helper for C4: one CRC-32 bit round stays below 2 to the 32. -/
theorem crc32Round_lt (c : Nat) (hc : c < 2 ^ 32) : crc32Round c < 2 ^ 32 := by
  unfold crc32Round
  split
  · exact Nat.xor_lt_two_pow (by omega) (by norm_num)
  · omega

/-- Helper for C4: the CRC-32 of any byte list is below 2 to the 32, so
the checksum always fits its u32 wire slot. -/
theorem crc32_lt (bs : List Nat) : crc32 bs < 2 ^ 32 := by
  have hbyte : ∀ c b, c < 2 ^ 32 → crc32UpdateByte c b < 2 ^ 32 := by
    intro c b hc
    unfold crc32UpdateByte
    refine crc32Round_lt _ (crc32Round_lt _ (crc32Round_lt _ (crc32Round_lt _
      (crc32Round_lt _ (crc32Round_lt _ (crc32Round_lt _ (crc32Round_lt _ ?_)))))))
    exact Nat.xor_lt_two_pow hc
      (by have := Nat.mod_lt b (show 0 < 256 by norm_num); omega)
  have hfold : ∀ (l : List Nat) (c : Nat), c < 2 ^ 32 →
      List.foldl crc32UpdateByte c l < 2 ^ 32 := by
    intro l
    induction l with
    | nil => intro c hc; simpa using hc
    | cons b l ih => intro c hc; exact ih _ (hbyte c b hc)
  unfold crc32
  exact Nat.xor_lt_two_pow (hfold bs _ (by norm_num)) (by norm_num)

/-- Helper for C4: the wire variant index of every message type fits in
its u32 slot. -/
theorem variantIndex_lt (ty : MessageType) : ty.variantIndex < 256 ^ 4 := by
  cases ty <;> norm_num [MessageType.variantIndex]

/-- Helper for C4: decoding a variant index recovers the message type. -/
theorem ofIndex_variantIndex (ty : MessageType) :
    MessageType.ofIndex ty.variantIndex = some ty := by
  cases ty <;> rfl

/-- Helper for C4: bincode deserialization inverts serialization for
every message whose numeric fields are in range. -/
theorem parseMessage_serializeMessage (m : Message)
    (hs : m.sender < 2 ^ 64) (hr : m.recipient < 2 ^ 64)
    (hq : m.sequence_number < 2 ^ 64)
    (ht1 : -(2 ^ 63) ≤ m.timestamp) (ht2 : m.timestamp < 2 ^ 63)
    (hp : m.payload.length < 2 ^ 64) (hc : m.checksum < 2 ^ 32) :
    parseMessage (serializeMessage m) = some m := by
  have h64 : (256 : Nat) ^ 8 = 2 ^ 64 := by norm_num
  have h32 : (256 : Nat) ^ 4 = 2 ^ 32 := by norm_num
  have hs8 : m.sender % 256 ^ 8 = m.sender :=
    Nat.mod_eq_of_lt (by rw [h64]; exact hs)
  have hr8 : m.recipient % 256 ^ 8 = m.recipient :=
    Nat.mod_eq_of_lt (by rw [h64]; exact hr)
  have hq8 : m.sequence_number % 256 ^ 8 = m.sequence_number :=
    Nat.mod_eq_of_lt (by rw [h64]; exact hq)
  have hp8 : m.payload.length % 256 ^ 8 = m.payload.length :=
    Nat.mod_eq_of_lt (by rw [h64]; exact hp)
  have hty4 : m.message_type.variantIndex % 256 ^ 4 =
      m.message_type.variantIndex := Nat.mod_eq_of_lt (variantIndex_lt _)
  have hck4 : m.checksum % 256 ^ 4 = m.checksum :=
    Nat.mod_eq_of_lt (by rw [h32]; exact hc)
  have hcktail : readLENat 4 (natToLEBytes 4 m.checksum) =
      some (m.checksum, []) := by
    have h := readLENat_append 4 m.checksum []
    rw [List.append_nil] at h
    rw [h, hck4]
  have hple : m.payload.length ≤
      (m.payload ++ natToLEBytes 4 m.checksum).length := by
    simp
  unfold serializeMessage parseMessage
  simp only [readLENat_append, readLEInt8_append m.timestamp _ ht1 ht2,
    hs8, hr8, hq8, hp8, hty4, ofIndex_variantIndex, if_pos hple,
    List.take_left, List.drop_left, hcktail]

/-- C4: for every message built by Message::new (any sender, recipient,
sequence number, i64 timestamp, message kind and payload) whose
encoding fits the configured size limit, encode succeeds and decode of
the encoding succeeds and reproduces every field exactly, including the
checksum. -/
theorem C4_encode_decode_roundtrip (c : MessageCodec)
    (sender recipient seq : Nat) (ts : Int) (ty : MessageType)
    (payload : List Nat) (hs : sender < 2 ^ 64) (hr : recipient < 2 ^ 64)
    (hq : seq < 2 ^ 64) (ht1 : -(2 ^ 63) ≤ ts) (ht2 : ts < 2 ^ 63)
    (hp : payload.length < 2 ^ 64)
    (hlen : (serializeMessage
        (Message.new sender recipient seq ts ty payload)).length ≤
      c.max_message_size) :
    c.encode (Message.new sender recipient seq ts ty payload) =
      .ok (serializeMessage (Message.new sender recipient seq ts ty payload)) ∧
    c.decode (serializeMessage (Message.new sender recipient seq ts ty payload)) =
      .ok (Message.new sender recipient seq ts ty payload) := by
  have hck : (Message.new sender recipient seq ts ty payload).checksum <
      2 ^ 32 := crc32_lt _
  have hparse := parseMessage_serializeMessage
    (Message.new sender recipient seq ts ty payload) hs hr hq ht1 ht2 hp hck
  have hverify : (Message.new sender recipient seq ts ty payload).verify_checksum
      = true := by
    simp only [Message.verify_checksum]
    exact decide_eq_true rfl
  constructor
  · unfold MessageCodec.encode
    rw [if_neg (by omega)]
  · unfold MessageCodec.decode
    rw [if_neg (by omega), hparse]
    simp only [hverify, if_true]

/-- Witness for C4 on the concrete message used by the repository's own
codec tests (sender 1, recipient 2, sequence 100, a 2024 timestamp,
Data kind, payload of five bytes) with the default 1 MiB codec. -/
theorem C4_witness :
    MessageCodec.default.decode (serializeMessage
        (Message.new 1 2 100 1704067200000 .Data [1, 2, 3, 4, 5])) =
      .ok (Message.new 1 2 100 1704067200000 .Data [1, 2, 3, 4, 5]) :=
  (C4_encode_decode_roundtrip MessageCodec.default 1 2 100 1704067200000
    .Data [1, 2, 3, 4, 5] (by norm_num) (by norm_num) (by norm_num)
    (by norm_num) (by norm_num) (by norm_num) (by decide)).2

end QDB
